import Mathlib

/- Shallow embedding of the astro-core XISF reader:
   src/astro-io/src/xisf.rs, src/astro-metadata/src/xisf_parser.rs,
   src/astro-metadata/src/fits_parser.rs, src/astro-metadata/src/types.rs.

   Modelling conventions:
   - Rust strings and byte buffers are lists of bytes (List Nat); string scanning
     in the source (str::find etc.) is byte based, so this is exact for the
     scanning logic.  ASCII literals are written with the helper ascii below.
   - f32/f64 values are modelled as rationals; parse::<f32> / parse::<f64> are
     modelled by an exact decimal-and-exponent parser (the rounding to binary
     floating point, and the inf/NaN spellings, are not modelled).
   - chrono DateTime<Utc> timestamps are rational seconds since the Unix epoch.
   - HashMap is modelled as an association list where insert shadows the
     previous binding (lookup takes the first hit). -/

/-- Bytes of an ASCII string literal (code points equal bytes for ASCII). -/
def ascii (s : String) : List Nat := s.data.map Char.toNat

/-- ASCII digit test, models char::is_ascii_digit on bytes. -/
def isDigit (b : Nat) : Bool := decide (48 ≤ b ∧ b ≤ 57)

/-- ASCII whitespace test; models the whitespace classes used by
str::split_whitespace and str::trim (restricted to ASCII). -/
def isWs (b : Nat) : Bool := decide (b = 32 ∨ b = 9 ∨ b = 10 ∨ b = 13 ∨ b = 11 ∨ b = 12)

/-- Value of a big-endian list of ASCII digit bytes. -/
def digitsToNat (l : List Nat) : Nat := l.foldl (fun a b => 10 * a + (b - 48)) 0

/-- Models usize::from_str: optional leading plus sign, then one or more digits
(overflow is not modelled). -/
def parse_usize (s : List Nat) : Option Nat :=
  let s1 := match s with
    | 43 :: t => t
    | _ => s
  if s1 ≠ [] ∧ s1.all isDigit then some (digitsToNat s1) else none

/-- Models i32::from_str (overflow not modelled). -/
def parse_i32 (s : List Nat) : Option ℤ :=
  match s with
  | 43 :: t => if t ≠ [] ∧ t.all isDigit then some (digitsToNat t : ℤ) else none
  | 45 :: t => if t ≠ [] ∧ t.all isDigit then some (-(digitsToNat t : ℤ)) else none
  | t => if t ≠ [] ∧ t.all isDigit then some (digitsToNat t : ℤ) else none

/-- Exponent part of the float grammar: empty, or an e/E followed by an
optionally signed digit string. -/
def parseExp (s : List Nat) : Option ℤ :=
  match s with
  | [] => some 0
  | b :: t =>
    if b = 101 ∨ b = 69 then
      match t with
      | 43 :: r => if r ≠ [] ∧ r.all isDigit then some (digitsToNat r : ℤ) else none
      | 45 :: r => if r ≠ [] ∧ r.all isDigit then some (-(digitsToNat r : ℤ)) else none
      | r => if r ≠ [] ∧ r.all isDigit then some (digitsToNat r : ℤ) else none
    else none

/-- Models f32/f64 FromStr on finite decimal inputs: optional sign, digits with
an optional point and fraction, optional e/E exponent; the whole string must be
consumed.  The value is kept exactly as a rational (binary rounding and the
inf/NaN spellings are not modelled). -/
def parseRat (s : List Nat) : Option ℚ :=
  let p : ℚ × List Nat := match s with
    | 45 :: t => (-1, t)
    | 43 :: t => (1, t)
    | _ => (1, s)
  let ds := p.2.takeWhile isDigit
  let s2 := p.2.dropWhile isDigit
  match s2 with
  | 46 :: t =>
    let fs := t.takeWhile isDigit
    let s3 := t.dropWhile isDigit
    if ds.isEmpty ∧ fs.isEmpty then none
    else (parseExp s3).map (fun e =>
      p.1 * ((digitsToNat ds : ℚ) + (digitsToNat fs : ℚ) / (10 : ℚ) ^ fs.length) * (10 : ℚ) ^ e)
  | _ =>
    if ds.isEmpty then none
    else (parseExp s2).map (fun e => p.1 * (digitsToNat ds : ℚ) * (10 : ℚ) ^ e)

/-- The UTF-8 replacement character U+FFFD as UTF-8 bytes. -/
def repl : List Nat := [239, 191, 189]

/-- UTF-8 continuation byte test. -/
def isCont (b : Nat) : Bool := decide (128 ≤ b ∧ b ≤ 191)

/-- First-continuation-byte range check for a given lead byte. -/
def contOkFor (lead c : Nat) : Bool :=
  if lead = 224 then decide (160 ≤ c ∧ c ≤ 191)
  else if lead = 237 then decide (128 ≤ c ∧ c ≤ 159)
  else if lead = 240 then decide (144 ≤ c ∧ c ≤ 191)
  else if lead = 244 then decide (128 ≤ c ∧ c ≤ 143)
  else isCont c

/-- Models String::from_utf8_lossy at the byte level: well-formed sequences are
copied, each maximal invalid subpart is replaced by the U+FFFD bytes. -/
def utf8Lossy : List Nat → List Nat
  | [] => []
  | b :: rest =>
    if b < 128 then b :: utf8Lossy rest
    else if 194 ≤ b ∧ b ≤ 223 then
      match rest with
      | [] => repl
      | c :: r2 =>
        if isCont c then b :: c :: utf8Lossy r2
        else repl ++ utf8Lossy (c :: r2)
    else if b = 224 ∨ (225 ≤ b ∧ b ≤ 236) ∨ b = 237 ∨ b = 238 ∨ b = 239 then
      match rest with
      | [] => repl
      | c1 :: r2 =>
        if contOkFor b c1 then
          match r2 with
          | [] => repl
          | c2 :: r3 =>
            if isCont c2 then b :: c1 :: c2 :: utf8Lossy r3
            else repl ++ utf8Lossy (c2 :: r3)
        else repl ++ utf8Lossy (c1 :: r2)
    else if b = 240 ∨ (241 ≤ b ∧ b ≤ 243) ∨ b = 244 then
      match rest with
      | [] => repl
      | c1 :: r2 =>
        if contOkFor b c1 then
          match r2 with
          | [] => repl
          | c2 :: r3 =>
            if isCont c2 then
              match r3 with
              | [] => repl
              | c3 :: r4 =>
                if isCont c3 then b :: c1 :: c2 :: c3 :: utf8Lossy r4
                else repl ++ utf8Lossy (c3 :: r4)
            else repl ++ utf8Lossy (c2 :: r3)
        else repl ++ utf8Lossy (c1 :: r2)
    else repl ++ utf8Lossy rest

/-- First byte index at which pat occurs as a contiguous sublist of hay;
models str::find with a literal pattern (byte offsets). -/
def findSub (hay pat : List Nat) : Option Nat :=
  if pat.isPrefixOf hay then some 0
  else
    match hay with
    | [] => none
    | _ :: t => (findSub t pat).map (· + 1)

/-- Models str::split_whitespace (ASCII whitespace): maximal runs of
non-whitespace bytes, empty tokens never produced. -/
def splitWsAux : List Nat → List Nat → List (List Nat)
  | [], acc => if acc.isEmpty then [] else [acc.reverse]
  | b :: rest, acc =>
    if isWs b then
      if acc.isEmpty then splitWsAux rest []
      else acc.reverse :: splitWsAux rest []
    else splitWsAux rest (b :: acc)

/-- Entry point of the whitespace splitter. -/
def split_whitespace (l : List Nat) : List (List Nat) := splitWsAux l []

/-- Models str::trim (ASCII whitespace): removes leading and trailing
whitespace bytes. -/
def trimWs (l : List Nat) : List Nat :=
  ((l.dropWhile isWs).reverse.dropWhile isWs).reverse

/-- Models str::trim_matches with the single-quote character pattern: removes
every leading and every trailing single-quote byte (39). -/
def trimSingleQuotes (l : List Nat) : List Nat :=
  ((l.dropWhile (fun b => b = 39)).reverse.dropWhile (fun b => b = 39)).reverse

/-- Leap-year rule of the proleptic Gregorian calendar used by chrono. -/
def isLeapYear (y : ℤ) : Bool := decide (y % 4 = 0 ∧ (y % 100 ≠ 0 ∨ y % 400 = 0))

/-- Number of days in a month, as validated by chrono date construction. -/
def daysInMonth (y m : ℤ) : ℤ :=
  if m = 2 then (if isLeapYear y then 29 else 28)
  else if m = 4 ∨ m = 6 ∨ m = 9 ∨ m = 11 then 30
  else 31

/-- Days from 1970-01-01 to the civil date y-m-d (standard civil-from-days
inverse; Lean integer division is floor division for positive divisors). -/
def daysFromCivil (y m d : ℤ) : ℤ :=
  let y2 := if m ≤ 2 then y - 1 else y
  let era := y2 / 400
  let yoe := y2 - era * 400
  let mp := (m + 9) % 12
  let doy := (153 * mp + 2) / 5 + d - 1
  let doe := yoe * 365 + yoe / 4 - yoe / 100 + doy
  era * 146097 + doe - 719468

/-- Takes at most k leading digits; chrono numeric fields accept one up to k
digit characters. -/
def takeDigitsUpTo (k : Nat) (s : List Nat) : List Nat × List Nat :=
  let d := (s.takeWhile isDigit).take k
  (d, s.drop d.length)

/-- Parses the fixed "Y-M-D sep H:M:S [.frac] [Z]" shapes of the six chrono
patterns tried by parse_date_time in the source; returns seconds since the
Unix epoch.  The union of the six patterns is: date, then a T or space
separator, then time, an optional fractional-second part, and a trailing Z
accepted only for the T-separated forms.  Sub-modelling: years are 1-4 digit
unsigned, leap second 60 is not accepted. -/
def parse_date_time (s : List Nat) : Option ℚ :=
  let (ys, r1) := takeDigitsUpTo 4 s
  match r1 with
  | 45 :: r2 =>
    let (ms, r3) := takeDigitsUpTo 2 r2
    match r3 with
    | 45 :: r4 =>
      let (ds, r5) := takeDigitsUpTo 2 r4
      match r5 with
      | sep :: r6 =>
        if sep = 84 ∨ sep = 32 then
          let (hs, r7) := takeDigitsUpTo 2 r6
          match r7 with
          | 58 :: r8 =>
            let (mins, r9) := takeDigitsUpTo 2 r8
            match r9 with
            | 58 :: r10 =>
              let (ss, r11) := takeDigitsUpTo 2 r10
              let fracAndRest : Option (ℚ × List Nat) :=
                match r11 with
                | 46 :: r12 =>
                  let (fs, r13) := takeDigitsUpTo 9 r12
                  if fs.isEmpty then none
                  else some ((digitsToNat fs : ℚ) / (10 : ℚ) ^ fs.length, r13)
                | r12 => some (0, r12)
              match fracAndRest with
              | none => none
              | some (frac, rest) =>
                let zOk := rest = [] ∨ (rest = [90] ∧ sep = 84)
                let y : ℤ := digitsToNat ys
                let mo : ℤ := digitsToNat ms
                let d : ℤ := digitsToNat ds
                let h : ℤ := digitsToNat hs
                let mi : ℤ := digitsToNat mins
                let sec : ℤ := digitsToNat ss
                if ys ≠ [] ∧ ms ≠ [] ∧ ds ≠ [] ∧ hs ≠ [] ∧ mins ≠ [] ∧ ss ≠ [] ∧
                   zOk ∧ 1 ≤ mo ∧ mo ≤ 12 ∧ 1 ≤ d ∧ d ≤ daysInMonth y mo ∧
                   h ≤ 23 ∧ mi ≤ 59 ∧ sec ≤ 59 then
                  some ((daysFromCivil y mo d * 86400 + h * 3600 + mi * 60 + sec : ℤ) + frac)
                else none
            | _ => none
          | _ => none
        else none
      | _ => none
    | _ => none
  | _ => none

/-- Models f64::round as used on longitude / 15.0: rounds half away from
zero. -/
def rustRound (q : ℚ) : ℤ := if 0 ≤ q then ⌊q + 1 / 2⌋ else ⌈q - 1 / 2⌉

/-- Error conditions of the reader; the source uses anyhow errors whose two
shapes are the io-context failures of read_exact and the invalid-signature
bail. -/
inductive XisfError where
  | ioError : XisfError
  | invalidFormat : XisfError
deriving DecidableEq

/-- Association-list model of HashMap<String, String>-style maps: insert
shadows the previous binding and lookup takes the first hit. -/
def hmInsert {α : Type} (k : List Nat) (v : α) (m : List (List Nat × α)) :
    List (List Nat × α) :=
  (k, v) :: m.filter (fun p => p.1 ≠ k)

/-- Equipment information (types.rs); only fields written by the modelled
parsers are carried. -/
structure Equipment where
  telescope_name : Option (List Nat) := none
  focal_length : Option ℚ := none
  aperture : Option ℚ := none
  focal_ratio : Option ℚ := none
  reducer_flattener : Option (List Nat) := none
  mount_model : Option (List Nat) := none
  focuser_position : Option ℤ := none
  focuser_temperature : Option ℚ := none

/-- Detector and camera settings (types.rs). -/
structure Detector where
  camera_name : Option (List Nat) := none
  pixel_size : Option ℚ := none
  width : Nat := 0
  height : Nat := 0
  binning_x : Nat := 0
  binning_y : Nat := 0
  gain : Option ℚ := none
  offset : Option ℤ := none
  readout_mode : Option (List Nat) := none
  usb_limit : Option (List Nat) := none
  read_noise : Option ℚ := none
  temperature : Option ℚ := none
  temp_setpoint : Option ℚ := none
  rotator_angle : Option ℚ := none

/-- Filter information (types.rs; named FilterInfo here because Filter is
taken by the ambient library). -/
structure FilterInfo where
  name : Option (List Nat) := none

/-- Exposure and timing information (types.rs). -/
structure Exposure where
  object_name : Option (List Nat) := none
  ra : Option ℚ := none
  dec : Option ℚ := none
  date_obs : Option ℚ := none
  session_date : Option ℚ := none
  exposure_time : Option ℚ := none
  frame_type : Option (List Nat) := none
  sequence_id : Option (List Nat) := none
  frame_number : Option Nat := none
  dither_offset_x : Option ℚ := none
  dither_offset_y : Option ℚ := none
  project_name : Option (List Nat) := none
  session_id : Option (List Nat) := none

/-- Mount and guiding information (types.rs). -/
structure Mount where
  pier_side : Option (List Nat) := none
  latitude : Option ℚ := none
  longitude : Option ℚ := none
  height : Option ℚ := none
  peak_ra_error : Option ℚ := none
  peak_dec_error : Option ℚ := none

/-- Environmental data (types.rs). -/
structure Environment where
  ambient_temp : Option ℚ := none
  humidity : Option ℚ := none
  software_version : Option (List Nat) := none
  sqm : Option ℚ := none

/-- World Coordinate System data (types.rs); only the fields written by the
XISF mapper are carried. -/
structure WcsData where
  crpix1 : Option ℚ := none
  crpix2 : Option ℚ := none

/-- XISF-specific metadata (types.rs). -/
structure XisfMetadata where
  version : List Nat := []
  creator : Option (List Nat) := none
  creation_time : Option ℚ := none
  block_alignment : Option Nat := none

/-- Display function parameters (types.rs). -/
structure DisplayFunction where
  function_type : Option (List Nat) := none
  parameters : List (List Nat × ℚ) := []

/-- Color management information (types.rs). -/
structure ColorManagement where
  color_space : Option (List Nat) := none
  icc_profile : Option (List Nat) := none
  display_function : Option DisplayFunction := none

/-- Information about an image attachment (types.rs). -/
structure AttachmentInfo where
  id : List Nat := []
  geometry : List Nat := []
  sample_format : List Nat := []
  bits_per_sample : Nat := 0
  compression : Option (List Nat) := none
  compression_parameters : List (List Nat × List Nat) := []
  checksum_type : Option (List Nat) := none
  checksum : Option (List Nat) := none
  resolution_x : Option ℚ := none
  resolution_y : Option ℚ := none
  resolution_unit : Option (List Nat) := none

/-- Core metadata structure (types.rs); Default in the source maps to the
field defaults written here. -/
structure AstroMetadata where
  equipment : Equipment := {}
  detector : Detector := {}
  filter : FilterInfo := {}
  exposure : Exposure := {}
  mount : Option Mount := none
  environment : Option Environment := none
  wcs : Option WcsData := none
  xisf : Option XisfMetadata := none
  color_management : Option ColorManagement := none
  attachments : List AttachmentInfo := []
  raw_headers : List (List Nat × List Nat) := []

/-- Models extract_attribute (identical in xisf.rs and xisf_parser.rs): search
for the literal name="..." pattern, return the bytes up to the next double
quote. -/
def extract_attribute (xml attr_name : List Nat) : Option (List Nat) :=
  let search_pattern := attr_name ++ [61, 34]
  match findSub xml search_pattern with
  | none => none
  | some start_pos =>
    let start := start_pos + search_pattern.length
    match findSub (xml.drop start) [34] with
    | none => none
    | some end_pos => some ((xml.drop start).take end_pos)

/-- Models extract_property_value (xisf_parser.rs): locate the property tag by
its id/type pattern, then return the trimmed text between the closing bracket
of that tag and the closing Property tag. -/
def extract_property_value (xml property_id : List Nat) : Option (List Nat) :=
  let search_pattern := ascii ("id=\"") ++ property_id ++ ascii ("\" type=\"")
  match findSub xml search_pattern with
  | none => none
  | some start_pos =>
    match findSub (xml.drop start_pos) [62] with
    | none => none
    | some tag_end =>
      let tag_end_pos := start_pos + tag_end + 1
      match findSub (xml.drop tag_end_pos) (ascii ("</Property>")) with
      | none => none
      | some end_tag_pos => some (trimWs ((xml.drop tag_end_pos).take end_tag_pos))

/-- Models parse_sexagesimal (xisf_parser.rs, identical in fits_parser.rs). -/
def parse_sexagesimal (value : List Nat) : Option ℚ :=
  let parts := split_whitespace value
  if parts.length ≥ 3 then
    match parseRat (parts.getD 0 []), parseRat (parts.getD 1 []), parseRat (parts.getD 2 []) with
    | some h, some m, some s =>
      some ((if h < 0 ∨ value.head? = some 45 then (-1 : ℚ) else 1) * (|h| + m / 60 + s / 3600))
    | _, _, _ => none
  else none

/-- Create-or-update helper for the lazily created mount substructure; models
the if-let-else-default pattern of the source. -/
def updMount (m : AstroMetadata) (f : Mount → Mount) : AstroMetadata :=
  { m with mount := some (f (m.mount.getD {})) }

/-- Create-or-update helper for the lazily created environment substructure. -/
def updEnv (m : AstroMetadata) (f : Environment → Environment) : AstroMetadata :=
  { m with environment := some (f (m.environment.getD {})) }

/-- Create-or-update helper for the lazily created WCS substructure. -/
def updWcs (m : AstroMetadata) (f : WcsData → WcsData) : AstroMetadata :=
  { m with wcs := some (f (m.wcs.getD {})) }

/-- Models process_fits_keyword (xisf_parser.rs): dispatch of a FITS keyword
name/value pair into the typed metadata fields.  Branch order and keyword
synonym lists follow the source match. -/
def process_fits_keyword (m : AstroMetadata) (name value : List Nat) : AstroMetadata :=
  if name = ascii ("TELESCOP") then
    { m with equipment := { m.equipment with telescope_name := some value } }
  else if name = ascii ("FOCALLEN") then
    { m with equipment := { m.equipment with focal_length := parseRat value } }
  else if name = ascii ("APERTURE") then
    { m with equipment := { m.equipment with aperture := parseRat value } }
  else if name = ascii ("FOCRATIO") then
    { m with equipment := { m.equipment with focal_ratio := parseRat value } }
  else if name = ascii ("INSTRUME") ∨ name = ascii ("CAMERA") then
    { m with detector := { m.detector with camera_name := some value } }
  else if name = ascii ("XPIXSZ") ∨ name = ascii ("PIXSIZE") then
    { m with detector := { m.detector with pixel_size := parseRat value } }
  else if name = ascii ("XBINNING") then
    { m with detector := { m.detector with binning_x := (parse_usize value).getD 1 } }
  else if name = ascii ("YBINNING") then
    { m with detector := { m.detector with binning_y := (parse_usize value).getD 1 } }
  else if name = ascii ("GAIN") ∨ name = ascii ("EGAIN") then
    { m with detector := { m.detector with gain := parseRat value } }
  else if name = ascii ("RDNOISE") then
    { m with detector := { m.detector with read_noise := parseRat value } }
  else if name = ascii ("CCD-TEMP") ∨ name = ascii ("CCDTEMP") then
    { m with detector := { m.detector with temperature := parseRat value } }
  else if name = ascii ("SET-TEMP") then
    { m with detector := { m.detector with temp_setpoint := parseRat value } }
  else if name = ascii ("FILTER") then
    { m with filter := { m.filter with name := some value } }
  else if name = ascii ("OBJECT") then
    { m with exposure := { m.exposure with object_name := some value } }
  else if name = ascii ("RA") ∨ name = ascii ("OBJCTRA") then
    { m with exposure := { m.exposure with ra :=
        (match parseRat value with
        | some ra => some ra
        | none =>
          match parse_sexagesimal value with
          | some ra_deg => some (ra_deg * 15)
          | none => m.exposure.ra) } }
  else if name = ascii ("DEC") ∨ name = ascii ("OBJCTDEC") then
    { m with exposure := { m.exposure with dec :=
        (match parseRat value with
        | some dec => some dec
        | none =>
          match parse_sexagesimal value with
          | some dec_deg => some dec_deg
          | none => m.exposure.dec) } }
  else if name = ascii ("DATE-OBS") then
    { m with exposure := { m.exposure with date_obs := parse_date_time value } }
  else if name = ascii ("EXPTIME") ∨ name = ascii ("EXPOSURE") then
    { m with exposure := { m.exposure with exposure_time := parseRat value } }
  else if name = ascii ("IMAGETYP") ∨ name = ascii ("FRAME") then
    { m with exposure := { m.exposure with frame_type := some value } }
  else if name = ascii ("PIERSIDE") then
    updMount m (fun mount => { mount with pier_side := some value })
  else if name = ascii ("AMB_TEMP") ∨ name = ascii ("AMBTEMP") then
    updEnv m (fun env => { env with ambient_temp := parseRat value })
  else if name = ascii ("HUMIDITY") then
    updEnv m (fun env => { env with humidity := parseRat value })
  else if name = ascii ("CRPIX1") then
    updWcs m (fun wcs => { wcs with crpix1 := parseRat value })
  else if name = ascii ("CRPIX2") then
    updWcs m (fun wcs => { wcs with crpix2 := parseRat value })
  else if name = ascii ("SITELAT") ∨ name = ascii ("OBSLAT") then
    updMount m (fun mount => { mount with latitude := parseRat value })
  else if name = ascii ("SITELONG") ∨ name = ascii ("OBSLONG") then
    updMount m (fun mount => { mount with longitude := parseRat value })
  else if name = ascii ("SITEELEV") ∨ name = ascii ("OBSELEV") then
    updMount m (fun mount => { mount with height := parseRat value })
  else if name = ascii ("OFFSET") ∨ name = ascii ("CCDOFFST") then
    { m with detector := { m.detector with offset := parse_i32 value } }
  else if name = ascii ("READOUT") ∨ name = ascii ("READOUTM") then
    { m with detector := { m.detector with readout_mode := some value } }
  else if name = ascii ("USBLIMIT") ∨ name = ascii ("USBTRFC") then
    { m with detector := { m.detector with usb_limit := some value } }
  else if name = ascii ("ROTANG") ∨ name = ascii ("ROTPA") ∨ name = ascii ("ROTATANG") then
    { m with detector := { m.detector with rotator_angle := parseRat value } }
  else if name = ascii ("FOCPOS") ∨ name = ascii ("FOCUSPOS") then
    { m with equipment := { m.equipment with focuser_position := parse_i32 value } }
  else if name = ascii ("FOCTEMP") ∨ name = ascii ("FOCUSTEMP") then
    { m with equipment := { m.equipment with focuser_temperature := parseRat value } }
  else if name = ascii ("PEAKRA") ∨ name = ascii ("PEAKRAER") then
    updMount m (fun mount => { mount with peak_ra_error := parseRat value })
  else if name = ascii ("PEAKDEC") ∨ name = ascii ("PEAKDCER") then
    updMount m (fun mount => { mount with peak_dec_error := parseRat value })
  else if name = ascii ("SQM") ∨ name = ascii ("SQMMAG") ∨ name = ascii ("SKYQUAL") then
    updEnv m (fun env => { env with sqm := parseRat value })
  else if name = ascii ("PROJECT") ∨ name = ascii ("PROJNAME") then
    { m with exposure := { m.exposure with project_name := some value } }
  else if name = ascii ("SESSIONID") ∨ name = ascii ("SESSID") then
    { m with exposure := { m.exposure with session_id := some value } }
  else m

/-- Bytes of the embedded XML declaration marker. -/
def xmlDecl : List Nat := ascii ("<?xml")

/-- Models the declaration-scanning loop of extract_xml_content: the first
index i with i + 5 strictly below the length where the marker matches, else 0.
The second list argument is the still-unscanned suffix, header_data.drop i. -/
def xmlStartAux (header_data : List Nat) : Nat → List Nat → Nat
  | _, [] => 0
  | i, _ :: t =>
    if i + 5 < header_data.length ∧ (header_data.drop i).take 5 = xmlDecl then i
    else xmlStartAux header_data (i + 1) t

/-- Models Iterator::position: index of the first element satisfying p. -/
def position (p : Nat → Bool) : List Nat → Option Nat
  | [] => none
  | b :: t => if p b then some 0 else (position p t).map (· + 1)

/-- Models extract_xml_content (identical in xisf.rs and xisf_parser.rs) after
the header block has been read: scan for the declaration, cut at the first NUL
byte after it, decode lossily.  The function is total: extraction never fails
once the block is in hand. -/
def extract_xml_content (header_data : List Nat) : List Nat :=
  let xml_start := xmlStartAux header_data 0 header_data
  let actual_size :=
    match position (fun b => b == 0) (header_data.drop xml_start) with
    | some pos => xml_start + pos
    | none => header_data.length
  utf8Lossy ((header_data.take actual_size).drop xml_start)

/-- Models the element-iteration loops of extract_fits_keywords and
extract_attachments: find the opening pattern, bound the tag text by the
closing pattern, continue after the tag.  The fuel argument dominates the
number of loop iterations; each iteration strictly shrinks the text, so the
callers pass length + 1 and never exhaust it. -/
def scanElems (openPat closePat : List Nat) : Nat → List Nat → List (List Nat)
  | 0, _ => []
  | fuel + 1, xml =>
    match findSub xml openPat with
    | none => []
    | some s =>
      let after := xml.drop s
      match findSub after closePat with
      | none => []
      | some e =>
        let tagLen := e + closePat.length
        after.take tagLen :: scanElems openPat closePat fuel (after.drop tagLen)

/-- The FITSKeyword tag texts found by the scan loop, in scan order. -/
def fitsKeywordTags (xml : List Nat) : List (List Nat) :=
  scanElems (ascii ("<FITSKeyword ")) (ascii ("/>")) (xml.length + 1) xml

/-- The Image opening-tag texts found by the scan loop, in scan order. -/
def imageTags (xml : List Nat) : List (List Nat) :=
  scanElems (ascii ("<Image ")) (ascii (">")) (xml.length + 1) xml

/-- The name and quote-stripped value attributes of one FITSKeyword tag, when
both are present. -/
def cleanPairOf (tag : List Nat) : Option (List Nat × List Nat) :=
  match extract_attribute tag (ascii ("name")) with
  | none => none
  | some name =>
    match extract_attribute tag (ascii ("value")) with
    | none => none
    | some value => some (name, trimSingleQuotes value)

/-- The dispatched (name, cleaned value) pairs of all scanned FITSKeyword
tags. -/
def fitsKeywordPairs (xml : List Nat) : List (List Nat × List Nat) :=
  (fitsKeywordTags xml).filterMap cleanPairOf

/-- Models extract_fits_keywords (xisf_parser.rs): for each scanned tag with
both attributes, record the pair in the raw-header map and dispatch it through
process_fits_keyword. -/
def extract_fits_keywords (xml : List Nat) (metadata : AstroMetadata)
    (raw_headers : List (List Nat × List Nat)) :
    AstroMetadata × List (List Nat × List Nat) :=
  (fitsKeywordTags xml).foldl (fun acc tag =>
    match cleanPairOf tag with
    | none => acc
    | some (name, clean_value) =>
      (process_fits_keyword acc.1 name clean_value, hmInsert name clean_value acc.2))
    (metadata, raw_headers)

/-- Models extract_xml_attributes (xisf_parser.rs).  The colorSpace and
sampleFormat lookups of the source read the attribute and do nothing, so they
do not appear.  The geometry parse writes detector width and height; the
XISF:CreationTime property overwrites exposure.date_obs; the
XISF:CreatorApplication property lazily creates the environment. -/
def extract_xml_attributes (xml : List Nat) (metadata : AstroMetadata) : AstroMetadata :=
  let m1 :=
    match extract_attribute xml (ascii ("geometry")) with
    | some geometry =>
      let parts := List.splitOn 58 geometry
      if parts.length ≥ 2 then
        { metadata with detector := { metadata.detector with
            width := (parse_usize (parts.getD 0 [])).getD 0,
            height := (parse_usize (parts.getD 1 [])).getD 0 } }
      else metadata
    | none => metadata
  let m2 :=
    match extract_property_value xml (ascii ("XISF:CreationTime")) with
    | some creation_time =>
      { m1 with exposure := { m1.exposure with date_obs := parse_date_time creation_time } }
    | none => m1
  match extract_property_value xml (ascii ("XISF:CreatorApplication")) with
  | some creator_app => updEnv m2 (fun env => { env with software_version := some creator_app })
  | none => m2

/-- Models extract_xisf_metadata (xisf_parser.rs); the source takes the
metadata record as an argument but only mutates the XisfMetadata value. -/
def extract_xisf_metadata (xml : List Nat) (xisf_metadata : XisfMetadata) : XisfMetadata :=
  let x1 :=
    match extract_attribute xml (ascii ("version")) with
    | some version => { xisf_metadata with version := version }
    | none => xisf_metadata
  let x2 :=
    match extract_property_value xml (ascii ("XISF:CreatorApplication")) with
    | some creator_app => { x1 with creator := some creator_app }
    | none => x1
  let x3 :=
    match extract_property_value xml (ascii ("XISF:CreationTime")) with
    | some creation_time => { x2 with creation_time := parse_date_time creation_time }
    | none => x2
  match extract_attribute xml (ascii ("blockAlignment")) with
  | some block_alignment => { x3 with block_alignment := parse_usize block_alignment }
  | none => x3

/-- One displayParameters entry: split on every equals sign, keep the entry
only when it has exactly two parts and the value parses as f64. -/
def displayParamStep (acc : List (List Nat × ℚ)) (pair : List Nat) : List (List Nat × ℚ) :=
  let kv := List.splitOn 61 pair
  if kv.length = 2 then
    match parseRat (kv.getD 1 []) with
    | some value => hmInsert (kv.getD 0 []) value acc
    | none => acc
  else acc

/-- Models the displayParameters loop of extract_color_management: split on
semicolons, split each entry on every equals sign, keep only entries with
exactly two parts whose value parses as f64. -/
def displayParamsOf (params : List Nat) : List (List Nat × ℚ) :=
  (List.splitOn 59 params).foldl displayParamStep []

/-- Models extract_color_management (xisf_parser.rs). -/
def extract_color_management (xml : List Nat) (metadata : AstroMetadata) : AstroMetadata :=
  let cs := extract_attribute xml (ascii ("colorSpace"))
  let icc := extract_property_value xml (ascii ("ICCProfile"))
  let df := extract_attribute xml (ascii ("displayFunction"))
  let has_color_info := cs.isSome ∨ icc.isSome ∨ df.isSome
  let color_management : ColorManagement :=
    { color_space := cs,
      icc_profile := icc.map (fun _ => []),
      display_function := df.map (fun display_function_type =>
        { function_type := some display_function_type,
          parameters :=
            (match extract_attribute xml (ascii ("displayParameters")) with
            | some params => displayParamsOf params
            | none => []) }) }
  if has_color_info then { metadata with color_management := some color_management }
  else metadata

/-- One compressionParameters entry: split on every equals sign, keep the
entry only when it has exactly two parts. -/
def compressionParamStep (acc : List (List Nat × List Nat)) (pair : List Nat) :
    List (List Nat × List Nat) :=
  let kv := List.splitOn 61 pair
  if kv.length = 2 then hmInsert (kv.getD 0 []) (kv.getD 1 []) acc
  else acc

/-- Models the compressionParameters loop of extract_attachments: split on
semicolons, split each entry on every equals sign, keep only entries with
exactly two parts. -/
def compressionParamsOf (params : List Nat) : List (List Nat × List Nat) :=
  (List.splitOn 59 params).foldl compressionParamStep []

/-- Decimal digits of a nonnegative integer, most significant first. -/
def natDigits (n : Nat) : List Nat := (Nat.toDigits 10 n).map Char.toNat

/-- Models the per-Image-tag body of extract_attachments; idx is the number of
attachments already collected, used for the positional fallback identifier. -/
def mkAttachment (image_tag : List Nat) (idx : Nat) : AttachmentInfo :=
  { id :=
      (match extract_attribute image_tag (ascii ("id")) with
      | some id => id
      | none => ascii ("image") ++ natDigits idx),
    geometry := (extract_attribute image_tag (ascii ("geometry"))).getD [],
    sample_format := (extract_attribute image_tag (ascii ("sampleFormat"))).getD (ascii ("UInt16")),
    bits_per_sample :=
      (match extract_attribute image_tag (ascii ("bitsPerSample")) with
      | some bits_per_sample => (parse_usize bits_per_sample).getD 16
      | none => 16),
    compression := extract_attribute image_tag (ascii ("compression")),
    compression_parameters :=
      (match extract_attribute image_tag (ascii ("compression")) with
      | some _ =>
        match extract_attribute image_tag (ascii ("compressionParameters")) with
        | some params => compressionParamsOf params
        | none => []
      | none => []),
    checksum_type := extract_attribute image_tag (ascii ("checksumType")),
    checksum :=
      (match extract_attribute image_tag (ascii ("checksumType")) with
      | some _ => extract_attribute image_tag (ascii ("checksum"))
      | none => none),
    resolution_x :=
      (match extract_attribute image_tag (ascii ("xResolution")) with
      | some resolution_x => parseRat resolution_x
      | none => none),
    resolution_y :=
      (match extract_attribute image_tag (ascii ("xResolution")) with
      | some _ =>
        match extract_attribute image_tag (ascii ("yResolution")) with
        | some resolution_y => parseRat resolution_y
        | none => none
      | none => none),
    resolution_unit :=
      (match extract_attribute image_tag (ascii ("xResolution")) with
      | some _ => extract_attribute image_tag (ascii ("resolutionUnit"))
      | none => none) }

/-- Models extract_attachments (xisf_parser.rs): one descriptor per scanned
Image tag; the list is installed only when it is non-empty. -/
def extract_attachments (xml : List Nat) (metadata : AstroMetadata) : AstroMetadata :=
  let attachments := (imageTags xml).foldl (fun acc tag => acc ++ [mkAttachment tag acc.length]) []
  if attachments.isEmpty then metadata
  else { metadata with attachments := attachments }

/-- Models AstroMetadata::approximate_timezone_from_longitude (types.rs). -/
def approximate_timezone_from_longitude (m : AstroMetadata) : Option ℤ :=
  (m.mount.bind (fun mount => mount.longitude)).map (fun longitude => rustRound (longitude / 15))

/-- Models AstroMetadata::calculate_session_date (types.rs): shift by the
approximate timezone, take noon of the shifted day, go to the previous noon
exactly when the shifted time is strictly before noon. -/
def calculate_session_date (m : AstroMetadata) : AstroMetadata :=
  match m.exposure.date_obs with
  | none => m
  | some date_obs =>
    let local_time : ℚ :=
      match approximate_timezone_from_longitude m with
      | some tz_offset => date_obs + (tz_offset : ℚ) * 3600
      | none => date_obs
    let noon : ℚ := (⌊local_time / 86400⌋ : ℚ) * 86400 + 43200
    let session := if local_time < noon then noon - 86400 else noon
    { m with exposure := { m.exposure with session_date := some session } }

/-- The 8-byte XISF signature. -/
def xisfSignature : List Nat := ascii ("XISF0100")

/-- Little-endian 32-bit value of the four header-size bytes. -/
def leU32 (bytes : List Nat) : Nat :=
  bytes.getD 0 0 + 256 * bytes.getD 1 0 + 65536 * bytes.getD 2 0 + 16777216 * bytes.getD 3 0

/-- The metadata record built from an optionally extracted markup text; models
the body of extract_metadata (xisf_parser.rs) after the envelope has been
read: the XML-dependent passes run only when the header block was readable,
the raw-header map and the XISF substructure are installed unconditionally,
then the session date is computed.  The two initial values below model the
locals at the top of extract_metadata. -/
def initialMetadata : AstroMetadata := {}

/-- The XisfMetadata value initialized at the top of extract_metadata. -/
def initialXisf : XisfMetadata := { version := ascii ("1.0") }

def buildFromXml (xmlOpt : Option (List Nat)) : AstroMetadata :=
  match xmlOpt with
  | none =>
    calculate_session_date
      { initialMetadata with raw_headers := [], xisf := some initialXisf }
  | some xml_content =>
    calculate_session_date
      { extract_attachments xml_content
          (extract_color_management xml_content
            (extract_xml_attributes xml_content
              (extract_fits_keywords xml_content initialMetadata []).1)) with
        raw_headers := (extract_fits_keywords xml_content initialMetadata []).2,
        xisf := some (extract_xisf_metadata xml_content initialXisf) }

/-- Models extract_metadata (xisf_parser.rs) over a byte stream: signature and
header-size reads fail as io errors when the stream is short, a wrong
signature is the invalid-format failure, and a header block that cannot be
fully read is silently skipped (the if-let-Ok in the source). -/
def extract_metadata (input : List Nat) : Except XisfError AstroMetadata :=
  if input.length < 8 then .error .ioError
  else if input.take 8 ≠ xisfSignature then .error .invalidFormat
  else if input.length < 12 then .error .ioError
  else
    let header_size := leU32 ((input.drop 8).take 4)
    let rest := input.drop 12
    let xmlOpt :=
      if header_size ≤ rest.length then some (extract_xml_content (rest.take header_size))
      else none
    .ok (buildFromXml xmlOpt)

/-- Models read_pixel_data (xisf.rs): short buffers degrade to a zero-filled
width*height buffer, otherwise each pixel is the little-endian 16-bit sample
normalized by 65535 (the per-read error fallback of the source pushes 0). -/
def read_pixel_data (data : List Nat) (width height : Nat) : Except XisfError (List ℚ) :=
  let expected_size := width * height * 2
  if data.length < expected_size then .ok (List.replicate (width * height) 0)
  else .ok ((List.range (width * height)).map (fun i =>
    match data[2 * i]?, data[2 * i + 1]? with
    | some lo, some hi => ((lo + 256 * hi : ℕ) : ℚ) / 65535
    | _, _ => 0))

/-- Models get_string_header (fits_parser.rs): first key present with a
non-empty value. -/
def get_string_header (headers : List (List Nat × List Nat)) :
    List (List Nat) → Option (List Nat)
  | [] => none
  | k :: rest =>
    match List.lookup k headers with
    | some value => if value ≠ [] then some value else get_string_header headers rest
    | none => get_string_header headers rest

/-- Models get_float_header (fits_parser.rs): first key whose value parses as
f32. -/
def get_float_header (headers : List (List Nat × List Nat)) :
    List (List Nat) → Option ℚ
  | [] => none
  | k :: rest =>
    match List.lookup k headers with
    | some value =>
      match parseRat value with
      | some float_val => some float_val
      | none => get_float_header headers rest
    | none => get_float_header headers rest

/-- Models parse_exposure (fits_parser.rs): the FITS-path mapping of exposure
fields from a raw header map.  Note the unconditional hours-to-degrees
multiplication of the RA value. -/
def parse_exposure (exposure : Exposure) (headers : List (List Nat × List Nat)) : Exposure :=
  let e1 := { exposure with object_name := get_string_header headers [ascii ("OBJECT")] }
  let e2 := { e1 with
    ra := (get_float_header headers [ascii ("RA"), ascii ("OBJCTRA")]).map (fun ra => ra * 15),
    dec := get_float_header headers [ascii ("DEC"), ascii ("OBJCTDEC")] }
  let e3 :=
    match get_string_header headers [ascii ("DATE-OBS")] with
    | some date_str => { e2 with date_obs := parse_date_time date_str }
    | none => e2
  let e4 := { e3 with
    exposure_time := get_float_header headers [ascii ("EXPTIME"), ascii ("EXPOSURE")],
    frame_type := get_string_header headers [ascii ("IMAGETYP"), ascii ("FRAME")],
    sequence_id := get_string_header headers [ascii ("SEQID"), ascii ("SEQFILE")] }
  let e5 :=
    match get_string_header headers [ascii ("FRAMENUM"), ascii ("SEQNUM")] with
    | some frame_num_str =>
      match parse_usize frame_num_str with
      | some frame_num => { e4 with frame_number := some frame_num }
      | none => e4
    | none => e4
  { e5 with
    dither_offset_x := get_float_header headers [ascii ("DX"), ascii ("DITHX")],
    dither_offset_y := get_float_header headers [ascii ("DY"), ascii ("DITHY")],
    project_name := get_string_header headers [ascii ("PROJECT"), ascii ("PROJNAME")],
    session_id := get_string_header headers [ascii ("SESSIONID"), ascii ("SESSID")] }

theorem findSub_le {hay pat : List Nat} {i : Nat} (h : findSub hay pat = some i) :
    i + pat.length ≤ hay.length := by
  induction hay generalizing i with
  | nil =>
    unfold findSub at h
    split at h
    · obtain rfl : (0 : Nat) = i := by injection h
      have hp : pat <+: ([] : List Nat) := List.isPrefixOf_iff_prefix.mp (by assumption)
      simpa using hp.length_le
    · simp at h
  | cons b t ih =>
    unfold findSub at h
    split at h
    · obtain rfl : (0 : Nat) = i := by injection h
      have hp : pat <+: (b :: t) := List.isPrefixOf_iff_prefix.mp (by assumption)
      simpa using hp.length_le
    · rcases Option.map_eq_some'.mp h with ⟨j, hj, rfl⟩
      have := ih hj
      simp only [List.length_cons]
      omega

theorem findSub_match {hay pat : List Nat} {i : Nat} (h : findSub hay pat = some i) :
    (hay.drop i).take pat.length = pat := by
  induction hay generalizing i with
  | nil =>
    unfold findSub at h
    split at h
    · obtain rfl : (0 : Nat) = i := by injection h
      have hp : pat <+: ([] : List Nat) := List.isPrefixOf_iff_prefix.mp (by assumption)
      have hpat : pat = [] := by simpa using hp
      simp [hpat]
    · simp at h
  | cons b t ih =>
    unfold findSub at h
    split at h
    · obtain rfl : (0 : Nat) = i := by injection h
      have hp : pat <+: (b :: t) := List.isPrefixOf_iff_prefix.mp (by assumption)
      simpa using (List.prefix_iff_eq_take.mp hp).symm
    · rcases Option.map_eq_some'.mp h with ⟨j, hj, rfl⟩
      simpa using ih hj

theorem findSub_short {hay pat : List Nat} (h : hay.length < pat.length) :
    findSub hay pat = none := by
  induction hay with
  | nil =>
    unfold findSub
    split
    · have hp : pat <+: ([] : List Nat) := List.isPrefixOf_iff_prefix.mp (by assumption)
      have := hp.length_le
      omega
    · rfl
  | cons b t ih =>
    unfold findSub
    split
    · have hp : pat <+: (b :: t) := List.isPrefixOf_iff_prefix.mp (by assumption)
      have := hp.length_le
      omega
    · have ht : t.length < pat.length := by
        simp only [List.length_cons] at h
        omega
      simp [ih ht]

theorem take_eq_imp_le {l pat : List Nat} (h : l.take pat.length = pat) :
    pat.length ≤ l.length := by
  have := congrArg List.length h
  simp [List.length_take] at this
  omega

/-- Spec-side start position for the markup slice, phrased as the claim words
it: the first occurrence of the declaration marker, or 0 when the marker
occurs nowhere, including the case where its five bytes end exactly at the
block end (the loop bound of the source excludes that last position). -/
def xmlStartSpec (header_data : List Nat) : Nat :=
  match findSub header_data xmlDecl with
  | some i => if i + 5 < header_data.length then i else 0
  | none => 0

theorem xmlStartAux_eq (header : List Nat) :
    ∀ (t : List Nat) (i : Nat), header.drop i = t →
      xmlStartAux header i t =
        (match findSub t xmlDecl with
         | some k => if i + k + 5 < header.length then i + k else 0
         | none => 0) := by
  intro t
  induction t with
  | nil =>
    intro i _
    simp [xmlStartAux, show findSub [] xmlDecl = none from by decide]
  | cons b t2 ih =>
    intro i hdrop
    have hdropsucc : header.drop (i + 1) = t2 := by
      have h1 := List.drop_drop 1 i header
      rw [hdrop] at h1
      simpa [Nat.add_comm] using h1.symm
    have hdecl5 : xmlDecl.length = 5 := by decide
    simp only [xmlStartAux]
    by_cases hm : (header.drop i).take 5 = xmlDecl
    · have hpre : xmlDecl.isPrefixOf (b :: t2) = true := by
        rw [List.isPrefixOf_iff_prefix, List.prefix_iff_eq_take, hdecl5, ← hdrop, hm]
      have hfs : findSub (b :: t2) xmlDecl = some 0 := by
        unfold findSub
        rw [if_pos hpre]
      have hle : i + 5 ≤ header.length := by
        have h5 : 5 ≤ (header.drop i).length := by
          rw [← hdecl5]
          exact take_eq_imp_le hm
        rw [List.length_drop] at h5
        omega
      by_cases hlt : i + 5 < header.length
      · rw [if_pos ⟨hlt, hm⟩, hfs]
        simp [hlt]
      · have hnc : ¬(i + 5 < header.length ∧ (header.drop i).take 5 = xmlDecl) := by
          intro hc
          exact hlt hc.1
        rw [if_neg hnc, ih (i + 1) hdropsucc, hfs]
        have ht2 : t2.length < xmlDecl.length := by
          have hl : (header.drop i).length = header.length - i := List.length_drop i header
          rw [hdrop] at hl
          simp only [List.length_cons] at hl
          omega
        rw [findSub_short ht2]
        have h50 : ¬ i + 0 + 5 < header.length := by omega
        simp [h50]
    · have hmbt : ¬(b :: t2).take 5 = xmlDecl := by
        rw [← hdrop]
        exact hm
      have hpre : ¬xmlDecl.isPrefixOf (b :: t2) = true := by
        rw [List.isPrefixOf_iff_prefix, List.prefix_iff_eq_take, hdecl5]
        intro hc
        exact hmbt hc.symm
      have hfs : findSub (b :: t2) xmlDecl = (findSub t2 xmlDecl).map (· + 1) := by
        rw [show findSub (b :: t2) xmlDecl =
              (if xmlDecl.isPrefixOf (b :: t2) = true then some 0
               else (findSub t2 xmlDecl).map (· + 1)) from rfl]
        rw [if_neg hpre]
      have hnc : ¬(i + 5 < header.length ∧ (header.drop i).take 5 = xmlDecl) := by
        intro hc
        exact hm hc.2
      rw [if_neg hnc, ih (i + 1) hdropsucc, hfs]
      cases hrec : findSub t2 xmlDecl with
      | none => simp
      | some k =>
        simp only [Option.map_some']
        rw [show i + 1 + k = i + (k + 1) from by omega]

theorem position_eq_findSub_nul (l : List Nat) :
    position (fun b => b == 0) l = findSub l [0] := by
  induction l with
  | nil => decide
  | cons b t ih =>
    have hpos : position (fun b => b == 0) (b :: t) =
        (if (b == 0) = true then some 0
         else (position (fun b => b == 0) t).map (· + 1)) := rfl
    have hfs : findSub (b :: t) [0] =
        (if ([0] : List Nat).isPrefixOf (b :: t) = true then some 0
         else (findSub t [0]).map (· + 1)) := rfl
    by_cases hb : b = 0
    · subst hb
      rw [hpos, hfs]
      simp [List.isPrefixOf]
    · have hnp : (([0] : List Nat).isPrefixOf (b :: t)) ≠ true := by
        simp [List.isPrefixOf]
        omega
      rw [hpos, hfs, if_neg hnp, if_neg (by simp [hb]), ih]

/-- C3: for every header byte block, the extracted markup text is the lossy
UTF-8 decoding of the substring that starts at the first occurrence of the
five-byte declaration marker (position 0 when the marker occurs nowhere in
the block, including when its only occurrence ends exactly at the block end)
and ends just before the first NUL byte at or after that start, or at the
block end when no such NUL exists; the extraction itself is a total function
of the block. -/
theorem extract_xml_content_matches_spec (header_data : List Nat) :
    extract_xml_content header_data =
      utf8Lossy
        ((header_data.take
            (match findSub (header_data.drop (xmlStartSpec header_data)) [0] with
             | some pos => xmlStartSpec header_data + pos
             | none => header_data.length)).drop (xmlStartSpec header_data)) := by
  unfold extract_xml_content
  have hstart : xmlStartAux header_data 0 header_data = xmlStartSpec header_data := by
    rw [xmlStartAux_eq header_data header_data 0 rfl]
    unfold xmlStartSpec
    cases hfs : findSub header_data xmlDecl with
    | none => rfl
    | some k => simp
  simp only [hstart, position_eq_findSub_nul]

/-- C1: for every width, height and byte buffer, the pixel decoder never
fails; with at least width*height*2 bytes it returns exactly width*height
values where element i is the little-endian unsigned 16-bit sample at byte
offset 2*i divided by 65535, each lying in the closed unit interval; with
fewer bytes it returns width*height zeros; and the synthetic samples 0,
32768, 65535, 16384 decode to 0, about one half, 1 and about one quarter
within 0.001. -/
theorem read_pixel_data_spec (width height : Nat) (data : List Nat)
    (hbytes : ∀ b ∈ data, b < 256) :
    (width * height * 2 ≤ data.length →
      ∃ l, read_pixel_data data width height = .ok l ∧
        l.length = width * height ∧
        ∀ i, i < width * height →
          l[i]? = some (((data.getD (2 * i) 0 + 256 * data.getD (2 * i + 1) 0 : ℕ) : ℚ) / 65535) ∧
          (0 : ℚ) ≤ ((data.getD (2 * i) 0 + 256 * data.getD (2 * i + 1) 0 : ℕ) : ℚ) / 65535 ∧
          ((data.getD (2 * i) 0 + 256 * data.getD (2 * i + 1) 0 : ℕ) : ℚ) / 65535 ≤ 1) ∧
    (data.length < width * height * 2 →
      read_pixel_data data width height = .ok (List.replicate (width * height) 0)) ∧
    (read_pixel_data [0, 0, 0, 128, 255, 255, 0, 64] 2 2 =
      .ok [0, 32768 / 65535, 1, 16384 / 65535] ∧
     |(32768 : ℚ) / 65535 - 1 / 2| < 1 / 1000 ∧
     |(16384 : ℚ) / 65535 - 1 / 4| < 1 / 1000) := by
  refine ⟨?_, ?_, ?_, by rw [abs_sub_lt_iff]; constructor <;> norm_num,
    by rw [abs_sub_lt_iff]; constructor <;> norm_num⟩
  · intro hlen
    have hok : read_pixel_data data width height =
        .ok ((List.range (width * height)).map (fun i =>
          match data[2 * i]?, data[2 * i + 1]? with
          | some lo, some hi => ((lo + 256 * hi : ℕ) : ℚ) / 65535
          | _, _ => 0)) := by
      unfold read_pixel_data
      rw [if_neg (by omega)]
    refine ⟨_, hok, by simp, ?_⟩
    intro i hi
    have h2i : 2 * i + 1 < data.length := by omega
    have h2i0 : 2 * i < data.length := by omega
    have hlo : data[2 * i]? = some data[2 * i] := List.getElem?_eq_getElem h2i0
    have hhi : data[2 * i + 1]? = some data[2 * i + 1] := List.getElem?_eq_getElem h2i
    have hgd0 : data.getD (2 * i) 0 = data[2 * i] := by
      rw [List.getD_eq_getElem?_getD, hlo]
      rfl
    have hgd1 : data.getD (2 * i + 1) 0 = data[2 * i + 1] := by
      rw [List.getD_eq_getElem?_getD, hhi]
      rfl
    have hlob : data[2 * i] < 256 := hbytes _ (List.getElem_mem h2i0)
    have hhib : data[2 * i + 1] < 256 := hbytes _ (List.getElem_mem h2i)
    refine ⟨?_, ?_, ?_⟩
    · rw [List.getElem?_map, List.getElem?_range hi]
      simp only [Option.map_some']
      rw [hlo, hhi, hgd0, hgd1]
    · positivity
    · rw [div_le_one (by norm_num)]
      have hle : data.getD (2 * i) 0 + 256 * data.getD (2 * i + 1) 0 ≤ 65535 := by
        rw [hgd0, hgd1]
        omega
      calc ((data.getD (2 * i) 0 + 256 * data.getD (2 * i + 1) 0 : ℕ) : ℚ)
          ≤ ((65535 : ℕ) : ℚ) := by exact_mod_cast hle
        _ = 65535 := by norm_num
  · intro hlen
    unfold read_pixel_data
    rw [if_pos (by omega)]
  · simp [read_pixel_data, List.range_succ]
    norm_num

/-- Witness for C1 at the concrete 2x2 sample buffer. -/
theorem read_pixel_data_spec_witness :
    ∃ l, read_pixel_data [0, 0, 0, 128, 255, 255, 0, 64] 2 2 = .ok l ∧ l.length = 2 * 2 := by
  obtain ⟨l, h1, h2, _⟩ :=
    (read_pixel_data_spec 2 2 [0, 0, 0, 128, 255, 255, 0, 64] (by decide)).1 (by decide)
  exact ⟨l, h1, h2⟩

/-- C2: with at least twelve bytes available, the envelope phase of the
metadata reader fails with the invalid-format condition exactly when the first
eight bytes differ from the signature literal; on a match it never fails,
whatever the following four bytes hold, and the record it produces is built
from the header block addressed by the little-endian 32-bit length those four
bytes encode (a block the stream cannot supply is skipped, not an error). -/
theorem extract_metadata_envelope_spec (input : List Nat) :
    (8 ≤ input.length →
      (extract_metadata input = .error .invalidFormat ↔ input.take 8 ≠ xisfSignature)) ∧
    (12 ≤ input.length → input.take 8 = xisfSignature →
      extract_metadata input =
        .ok (buildFromXml
          (if leU32 ((input.drop 8).take 4) ≤ (input.drop 12).length then
            some (extract_xml_content ((input.drop 12).take (leU32 ((input.drop 8).take 4))))
          else none))) := by
  constructor
  · intro h8
    unfold extract_metadata
    rw [if_neg (by omega)]
    by_cases hm : input.take 8 = xisfSignature
    · rw [if_neg (by simpa using hm)]
      constructor
      · intro hc
        by_cases h12 : input.length < 12
        · rw [if_pos h12] at hc
          exact absurd hc (by simp)
        · rw [if_neg h12] at hc
          exact absurd hc (by simp)
      · intro hc
        exact absurd hm hc
    · rw [if_pos (by simpa using hm)]
      simp [hm]
  · intro h12 hm
    unfold extract_metadata
    rw [if_neg (by omega), if_neg (by simpa using hm), if_neg (by omega)]

/-- Witness for C2: a correct signature with a zero header length yields a
parsed record, and a corrupted signature yields the invalid-format failure. -/
theorem extract_metadata_envelope_spec_witness :
    extract_metadata (ascii ("XISF0100") ++ [0, 0, 0, 0]) =
      .ok (buildFromXml (some (extract_xml_content []))) ∧
    extract_metadata (ascii ("AISF0100") ++ [0, 0, 0, 0]) = .error .invalidFormat := by
  constructor
  · have h := (extract_metadata_envelope_spec (ascii ("XISF0100") ++ [0, 0, 0, 0])).2
      (by decide) (by decide)
    rw [h]
    rfl
  · exact (extract_metadata_envelope_spec (ascii ("AISF0100") ++ [0, 0, 0, 0])).1
      (by decide) |>.mpr (by decide)

/-- The session value the claim describes: shift by round(longitude/15) hours
when a longitude is present (zero hours otherwise), take noon of the shifted
calendar day, and step back one day exactly when the shifted time is strictly
before that noon. -/
def sessionDateOf (date_obs : ℚ) (lngOpt : Option ℚ) : ℚ :=
  let tz : ℤ :=
    match lngOpt with
    | some lng => rustRound (lng / 15)
    | none => 0
  let local_time := date_obs + (tz : ℚ) * 3600
  let noon : ℚ := (⌊local_time / 86400⌋ : ℚ) * 86400 + 43200
  if local_time < noon then noon - 86400 else noon

/-- C4: session-date derivation shifts the observation by round(longitude/15)
hours when a mount longitude is present and by zero hours otherwise, takes
noon of the shifted calendar day, and assigns the previous noon exactly when
the shifted time is strictly earlier than that noon (a shifted time of
exactly noon keeps the same noon); without a longitude an observation at
02:00 UTC yields the previous noon, and without an observation timestamp no
session date is assigned. -/
theorem calculate_session_date_spec (m : AstroMetadata) :
    (∀ t, m.exposure.date_obs = some t →
      (calculate_session_date m).exposure.session_date =
        some (sessionDateOf t (m.mount.bind (fun mount => mount.longitude)))) ∧
    (m.exposure.date_obs = none →
      (calculate_session_date m).exposure.session_date = m.exposure.session_date) ∧
    ((calculate_session_date
        { exposure := { date_obs := some ((19492 : ℚ) * 86400 + 7200) } }).exposure.session_date =
      some ((19491 : ℚ) * 86400 + 43200)) ∧
    ((calculate_session_date
        { exposure := { date_obs := some ((19492 : ℚ) * 86400 + 43200) } }).exposure.session_date =
      some ((19492 : ℚ) * 86400 + 43200)) := by
  refine ⟨?_, ?_, ?_, ?_⟩
  · intro t ht
    unfold calculate_session_date sessionDateOf approximate_timezone_from_longitude
    rw [ht]
    cases hlng : m.mount.bind (fun mount => mount.longitude) with
    | none =>
      simp only [hlng, Option.map_none']
      norm_num
    | some lng =>
      simp only [hlng, Option.map_some']
  · intro ht
    unfold calculate_session_date
    rw [ht]
  · unfold calculate_session_date approximate_timezone_from_longitude
    have hfl : ⌊((19492 : ℚ) * 86400 + 7200) / 86400⌋ = 19492 := by
      norm_num
    simp only [Option.none_bind, Option.map_none', hfl]
    norm_num
  · unfold calculate_session_date approximate_timezone_from_longitude
    have hfl : ⌊((19492 : ℚ) * 86400 + 43200) / 86400⌋ = 19492 := by
      norm_num
    simp only [Option.none_bind, Option.map_none', hfl]
    norm_num

/-- Witness for C4 at a concrete record with a mount longitude. -/
theorem calculate_session_date_spec_witness :
    (calculate_session_date
        { exposure := { date_obs := some (100 : ℚ) },
          mount := some { longitude := some (-75) } }).exposure.session_date =
      some (sessionDateOf 100 (some (-75))) :=
  (calculate_session_date_spec
    { exposure := { date_obs := some (100 : ℚ) },
      mount := some { longitude := some (-75) } }).1 100 rfl

/-- The untrimmed name and value attribute pairs of the scanned FITSKeyword
tags, used to state what the raw-header map receives. -/
def fitsKeywordRawPairs (xml : List Nat) : List (List Nat × List Nat) :=
  (fitsKeywordTags xml).filterMap (fun tag =>
    match extract_attribute tag (ascii ("name")), extract_attribute tag (ascii ("value")) with
    | some name, some value => some (name, value)
    | _, _ => none)

/-- A FITSKeyword element whose value carries two layers of single quotes;
the tag reads name="OBJECT" value="''M31''". -/
def c5DoubleQuotedXml : List Nat :=
  ascii ("<FITSKeyword name=\"OBJECT\" value=\"") ++ [39, 39] ++ ascii ("M31") ++ [39, 39] ++
    ascii ("\"/>")

/-- Counterexample to C5 as stated: on a value carrying two layers of
surrounding single quotes, the raw map receives the value with all layers
stripped, not with exactly one layer stripped (which would leave one layer in
place). -/
theorem c5_one_layer_counterexample :
    List.lookup (ascii ("OBJECT")) ((extract_fits_keywords c5DoubleQuotedXml {} []).2) =
      some (ascii ("M31")) ∧
    some (ascii ("M31")) ≠ some ([39] ++ ascii ("M31") ++ [39]) := by
  constructor
  · decide
  · decide

/-- The C5 scenario header: two FITSKeyword elements, OBJECT with the
FITS-style quoted value and EXPTIME with a quoted numeric value. -/
def c5ScenarioXml : List Nat :=
  ascii ("<FITSKeyword name=\"OBJECT\" value=\"") ++ [39] ++ ascii ("M31") ++ [39] ++
    ascii ("\"/><FITSKeyword name=\"EXPTIME\" value=\"") ++ [39] ++ ascii ("300.0") ++ [39] ++
    ascii ("\"/>")

/-- C5 (amended): every scanned FITSKeyword element with both attributes
contributes its name paired with the value after stripping all leading and
trailing single-quote characters to the raw-header map, independently of the
typed dispatch; in the two-keyword scenario the typed fields and the map hold
the unquoted values. -/
theorem extract_fits_keywords_raw_spec (xml : List Nat) (m : AstroMetadata)
    (raw : List (List Nat × List Nat)) :
    ((extract_fits_keywords xml m raw).2 =
      (fitsKeywordRawPairs xml).foldl
        (fun acc p => hmInsert p.1 (trimSingleQuotes p.2) acc) raw) ∧
    ((buildFromXml (some c5ScenarioXml)).exposure.object_name = some (ascii ("M31")) ∧
     (buildFromXml (some c5ScenarioXml)).exposure.exposure_time = some 300 ∧
     List.lookup (ascii ("OBJECT")) (buildFromXml (some c5ScenarioXml)).raw_headers =
       some (ascii ("M31")) ∧
     List.lookup (ascii ("EXPTIME")) (buildFromXml (some c5ScenarioXml)).raw_headers =
       some (ascii ("300.0"))) := by
  constructor
  · unfold extract_fits_keywords fitsKeywordRawPairs
    generalize fitsKeywordTags xml = tags
    induction tags generalizing m raw with
    | nil => rfl
    | cons tag rest ih =>
      simp only [List.foldl_cons, List.filterMap_cons]
      cases hn : extract_attribute tag (ascii ("name")) with
      | none =>
        simp only [cleanPairOf, hn]
        exact ih m raw
      | some n =>
        cases hv : extract_attribute tag (ascii ("value")) with
        | none =>
          simp only [cleanPairOf, hn, hv]
          exact ih m raw
        | some v =>
          simp only [cleanPairOf, hn, hv, List.foldl_cons]
          exact ih _ _
  · refine ⟨by decide, ?_, by decide, by decide⟩
    have h : (buildFromXml (some c5ScenarioXml)).exposure.exposure_time =
        parseRat [51, 48, 48, 46, 48] := rfl
    rw [h]
    simp [parseRat, parseExp, isDigit, digitsToNat]

/-- C6: a coordinate value is first tried as a plain decimal (stored as-is for
both axes); on failure it is read as three whitespace-separated decimals h, m,
s combined as sign times (abs h + m/60 + s/3600), the sign being negative
exactly when the first token is negative or the string starts with a minus
byte; a sexagesimal right ascension is multiplied by 15; the two sample
strings parse to minus ten and a half and ten and a half. -/
theorem parse_sexagesimal_spec :
    (∀ (value : List Nat) (qh qm qs : ℚ),
      parseRat value = none →
      3 ≤ (split_whitespace value).length →
      parseRat ((split_whitespace value).getD 0 []) = some qh →
      parseRat ((split_whitespace value).getD 1 []) = some qm →
      parseRat ((split_whitespace value).getD 2 []) = some qs →
      (process_fits_keyword {} (ascii ("DEC")) value).exposure.dec =
        some ((if qh < 0 ∨ value.head? = some 45 then (-1 : ℚ) else 1) *
          (|qh| + qm / 60 + qs / 3600)) ∧
      (process_fits_keyword {} (ascii ("RA")) value).exposure.ra =
        some (((if qh < 0 ∨ value.head? = some 45 then (-1 : ℚ) else 1) *
          (|qh| + qm / 60 + qs / 3600)) * 15)) ∧
    (∀ (value : List Nat) (q : ℚ), parseRat value = some q →
      (process_fits_keyword {} (ascii ("DEC")) value).exposure.dec = some q ∧
      (process_fits_keyword {} (ascii ("RA")) value).exposure.ra = some q) ∧
    parse_sexagesimal (ascii ("-10 30 0")) = some (-(21 / 2)) ∧
    parse_sexagesimal (ascii ("10 30 0")) = some (21 / 2) := by
  have hdec : ∀ value : List Nat,
      (process_fits_keyword {} (ascii ("DEC")) value).exposure.dec =
        (match parseRat value with
         | some dec => some dec
         | none =>
           match parse_sexagesimal value with
           | some dec_deg => some dec_deg
           | none => none) := fun _ => rfl
  have hra : ∀ value : List Nat,
      (process_fits_keyword {} (ascii ("RA")) value).exposure.ra =
        (match parseRat value with
         | some ra => some ra
         | none =>
           match parse_sexagesimal value with
           | some ra_deg => some (ra_deg * 15)
           | none => none) := fun _ => rfl
  refine ⟨?_, ?_, ?_, ?_⟩
  · intro value qh qm qs hnone h3 h0 h1 h2
    have hsex : parse_sexagesimal value =
        some ((if qh < 0 ∨ value.head? = some 45 then (-1 : ℚ) else 1) *
          (|qh| + qm / 60 + qs / 3600)) := by
      unfold parse_sexagesimal
      rw [if_pos h3, h0, h1, h2]
    rw [hdec, hra, hnone, hsex]
    exact ⟨rfl, rfl⟩
  · intro value q hq
    rw [hdec, hra, hq]
    exact ⟨rfl, rfl⟩
  · show parse_sexagesimal [45, 49, 48, 32, 51, 48, 32, 48] = some (-(21 / 2))
    simp [parse_sexagesimal, split_whitespace, splitWsAux, isWs, parseRat, parseExp,
      isDigit, digitsToNat]
    norm_num
  · show parse_sexagesimal [49, 48, 32, 51, 48, 32, 48] = some (21 / 2)
    simp [parse_sexagesimal, split_whitespace, splitWsAux, isWs, parseRat, parseExp,
      isDigit, digitsToNat]
    norm_num

/-- Witness for C6 at the concrete sexagesimal string. -/
theorem parse_sexagesimal_spec_witness :
    (process_fits_keyword {} (ascii ("DEC")) (ascii ("10 30 0"))).exposure.dec =
      some ((if (10 : ℚ) < 0 ∨ (ascii ("10 30 0")).head? = some 45 then (-1 : ℚ) else 1) *
        (|(10 : ℚ)| + 30 / 60 + 0 / 3600)) := by
  refine (parse_sexagesimal_spec.1 (ascii ("10 30 0")) 10 30 0 (by decide) (by decide)
    ?_ ?_ ?_).1
  · show parseRat [49, 48] = some 10
    simp [parseRat, parseExp, isDigit, digitsToNat]
  · show parseRat [51, 48] = some 30
    simp [parseRat, parseExp, isDigit, digitsToNat]
  · show parseRat [48] = some 0
    simp [parseRat, parseExp, isDigit, digitsToNat]

/-- The keyword names whose dispatch creates or mutates the mount
substructure. -/
def mountKeys : List (List Nat) :=
  [ascii ("PIERSIDE"), ascii ("SITELAT"), ascii ("OBSLAT"), ascii ("SITELONG"),
   ascii ("OBSLONG"), ascii ("SITEELEV"), ascii ("OBSELEV"), ascii ("PEAKRA"),
   ascii ("PEAKRAER"), ascii ("PEAKDEC"), ascii ("PEAKDCER")]

/-- The keyword names whose dispatch creates or mutates the environment
substructure. -/
def envKeys : List (List Nat) :=
  [ascii ("AMB_TEMP"), ascii ("AMBTEMP"), ascii ("HUMIDITY"), ascii ("SQM"),
   ascii ("SQMMAG"), ascii ("SKYQUAL")]

/-- The keyword names whose dispatch creates or mutates the WCS
substructure. -/
def wcsKeys : List (List Nat) :=
  [ascii ("CRPIX1"), ascii ("CRPIX2")]

set_option maxHeartbeats 1000000 in
theorem process_fits_keyword_mount {n : List Nat} (h : n ∉ mountKeys)
    (m : AstroMetadata) (v : List Nat) :
    (process_fits_keyword m n v).mount = m.mount := by
  simp only [mountKeys, List.mem_cons, List.not_mem_nil, or_false] at h
  push_neg at h
  obtain ⟨h1, h2, h3, h4, h5, h6, h7, h8, h9, h10, h11⟩ := h
  unfold process_fits_keyword
  simp [h1, h2, h3, h4, h5, h6, h7, h8, h9, h10, h11,
    apply_ite (fun r : AstroMetadata => r.mount), updMount, updEnv, updWcs]

set_option maxHeartbeats 1000000 in
theorem process_fits_keyword_env {n : List Nat} (h : n ∉ envKeys)
    (m : AstroMetadata) (v : List Nat) :
    (process_fits_keyword m n v).environment = m.environment := by
  simp only [envKeys, List.mem_cons, List.not_mem_nil, or_false] at h
  push_neg at h
  obtain ⟨h1, h2, h3, h4, h5, h6⟩ := h
  unfold process_fits_keyword
  simp [h1, h2, h3, h4, h5, h6,
    apply_ite (fun r : AstroMetadata => r.environment), updMount, updEnv, updWcs]

set_option maxHeartbeats 1000000 in
theorem process_fits_keyword_wcs {n : List Nat} (h : n ∉ wcsKeys)
    (m : AstroMetadata) (v : List Nat) :
    (process_fits_keyword m n v).wcs = m.wcs := by
  simp only [wcsKeys, List.mem_cons, List.not_mem_nil, or_false] at h
  push_neg at h
  obtain ⟨h1, h2⟩ := h
  unfold process_fits_keyword
  simp [h1, h2, apply_ite (fun r : AstroMetadata => r.wcs), updMount, updEnv, updWcs]

set_option maxHeartbeats 1000000 in
theorem process_fits_keyword_session (m : AstroMetadata) (n v : List Nat) :
    (process_fits_keyword m n v).exposure.session_date = m.exposure.session_date := by
  unfold process_fits_keyword
  simp [apply_ite (fun r : AstroMetadata => r.exposure.session_date),
    updMount, updEnv, updWcs]

set_option maxHeartbeats 1000000 in
theorem process_fits_keyword_xisf (m : AstroMetadata) (n v : List Nat) :
    (process_fits_keyword m n v).xisf = m.xisf := by
  unfold process_fits_keyword
  simp [apply_ite (fun r : AstroMetadata => r.xisf), updMount, updEnv, updWcs]

theorem calculate_session_date_eq (m : AstroMetadata) (t : ℚ)
    (ht : m.exposure.date_obs = some t) :
    (calculate_session_date m).exposure.session_date =
      some (sessionDateOf t (m.mount.bind (fun mount => mount.longitude))) := by
  unfold calculate_session_date sessionDateOf approximate_timezone_from_longitude
  rw [ht]
  cases hlng : m.mount.bind (fun mount => mount.longitude) with
  | none =>
    simp only [hlng, Option.map_none']
    norm_num
  | some lng =>
    simp only [hlng, Option.map_some']

theorem calculate_session_date_none (m : AstroMetadata)
    (ht : m.exposure.date_obs = none) :
    (calculate_session_date m).exposure.session_date = m.exposure.session_date := by
  unfold calculate_session_date
  rw [ht]

theorem calculate_session_date_fields (m : AstroMetadata) :
    (calculate_session_date m).mount = m.mount ∧
    (calculate_session_date m).environment = m.environment ∧
    (calculate_session_date m).wcs = m.wcs ∧
    (calculate_session_date m).xisf = m.xisf ∧
    (calculate_session_date m).exposure.date_obs = m.exposure.date_obs := by
  unfold calculate_session_date
  cases hobs : m.exposure.date_obs with
  | none => simp [hobs]
  | some t => simp [hobs]

theorem extract_color_management_fields (xml : List Nat) (m : AstroMetadata) :
    (extract_color_management xml m).mount = m.mount ∧
    (extract_color_management xml m).environment = m.environment ∧
    (extract_color_management xml m).wcs = m.wcs ∧
    (extract_color_management xml m).exposure = m.exposure ∧
    (extract_color_management xml m).xisf = m.xisf := by
  unfold extract_color_management
  refine ⟨?_, ?_, ?_, ?_, ?_⟩ <;>
    simp [apply_ite (fun r : AstroMetadata => r.mount),
      apply_ite (fun r : AstroMetadata => r.environment),
      apply_ite (fun r : AstroMetadata => r.wcs),
      apply_ite (fun r : AstroMetadata => r.exposure),
      apply_ite (fun r : AstroMetadata => r.xisf)]

theorem extract_attachments_fields (xml : List Nat) (m : AstroMetadata) :
    (extract_attachments xml m).mount = m.mount ∧
    (extract_attachments xml m).environment = m.environment ∧
    (extract_attachments xml m).wcs = m.wcs ∧
    (extract_attachments xml m).exposure = m.exposure ∧
    (extract_attachments xml m).xisf = m.xisf := by
  unfold extract_attachments
  refine ⟨?_, ?_, ?_, ?_, ?_⟩ <;>
    simp [apply_ite (fun r : AstroMetadata => r.mount),
      apply_ite (fun r : AstroMetadata => r.environment),
      apply_ite (fun r : AstroMetadata => r.wcs),
      apply_ite (fun r : AstroMetadata => r.exposure),
      apply_ite (fun r : AstroMetadata => r.xisf)]

theorem extract_xml_attributes_mount (xml : List Nat) (m : AstroMetadata) :
    (extract_xml_attributes xml m).mount = m.mount := by
  unfold extract_xml_attributes
  cases extract_attribute xml (ascii ("geometry")) <;>
    cases extract_property_value xml (ascii ("XISF:CreationTime")) <;>
      cases extract_property_value xml (ascii ("XISF:CreatorApplication")) <;>
        simp [apply_ite (fun r : AstroMetadata => r.mount), updEnv]

theorem extract_xml_attributes_wcs (xml : List Nat) (m : AstroMetadata) :
    (extract_xml_attributes xml m).wcs = m.wcs := by
  unfold extract_xml_attributes
  cases extract_attribute xml (ascii ("geometry")) <;>
    cases extract_property_value xml (ascii ("XISF:CreationTime")) <;>
      cases extract_property_value xml (ascii ("XISF:CreatorApplication")) <;>
        simp [apply_ite (fun r : AstroMetadata => r.wcs), updEnv]

theorem extract_xml_attributes_xisf (xml : List Nat) (m : AstroMetadata) :
    (extract_xml_attributes xml m).xisf = m.xisf := by
  unfold extract_xml_attributes
  cases extract_attribute xml (ascii ("geometry")) <;>
    cases extract_property_value xml (ascii ("XISF:CreationTime")) <;>
      cases extract_property_value xml (ascii ("XISF:CreatorApplication")) <;>
        simp [apply_ite (fun r : AstroMetadata => r.xisf), updEnv]

theorem extract_xml_attributes_session (xml : List Nat) (m : AstroMetadata) :
    (extract_xml_attributes xml m).exposure.session_date = m.exposure.session_date := by
  unfold extract_xml_attributes
  cases extract_attribute xml (ascii ("geometry")) <;>
    cases extract_property_value xml (ascii ("XISF:CreationTime")) <;>
      cases extract_property_value xml (ascii ("XISF:CreatorApplication")) <;>
        simp [apply_ite (fun r : AstroMetadata => r.exposure.session_date), updEnv]

theorem extract_xml_attributes_env_none (xml : List Nat) (m : AstroMetadata)
    (hca : extract_property_value xml (ascii ("XISF:CreatorApplication")) = none) :
    (extract_xml_attributes xml m).environment = m.environment := by
  unfold extract_xml_attributes
  rw [hca]
  cases extract_attribute xml (ascii ("geometry")) <;>
    cases extract_property_value xml (ascii ("XISF:CreationTime")) <;>
      simp [apply_ite (fun r : AstroMetadata => r.environment)]

theorem extract_xml_attributes_date_obs (xml : List Nat) (m : AstroMetadata)
    (v : List Nat)
    (hv : extract_property_value xml (ascii ("XISF:CreationTime")) = some v) :
    (extract_xml_attributes xml m).exposure.date_obs = parse_date_time v := by
  unfold extract_xml_attributes
  rw [hv]
  cases extract_attribute xml (ascii ("geometry")) <;>
    cases extract_property_value xml (ascii ("XISF:CreatorApplication")) <;>
      simp [apply_ite (fun r : AstroMetadata => r.exposure.date_obs), updEnv]

theorem extract_fits_keywords_mount (xml : List Nat) (m : AstroMetadata)
    (raw : List (List Nat × List Nat))
    (h : ∀ p ∈ fitsKeywordPairs xml, p.1 ∉ mountKeys) :
    (extract_fits_keywords xml m raw).1.mount = m.mount := by
  unfold extract_fits_keywords
  unfold fitsKeywordPairs at h
  revert h
  generalize fitsKeywordTags xml = tags
  intro h
  induction tags generalizing m raw with
  | nil => rfl
  | cons tag rest ih =>
    simp only [List.foldl_cons]
    cases hcp : cleanPairOf tag with
    | none =>
      simp only [hcp]
      exact ih m raw (fun p hp =>
        h p (by simp only [List.filterMap_cons, hcp]; exact hp))
    | some pr =>
      obtain ⟨nn, vv⟩ := pr
      have hrest : ∀ p ∈ rest.filterMap cleanPairOf, p.1 ∉ mountKeys := fun p hp =>
        h p (by simp only [List.filterMap_cons, hcp]; exact List.mem_cons_of_mem _ hp)
      have hn : nn ∉ mountKeys :=
        h (nn, vv) (by simp only [List.filterMap_cons, hcp]; exact List.mem_cons_self _ _)
      simp only [hcp]
      rw [ih _ _ hrest, process_fits_keyword_mount hn]

theorem extract_fits_keywords_env (xml : List Nat) (m : AstroMetadata)
    (raw : List (List Nat × List Nat))
    (h : ∀ p ∈ fitsKeywordPairs xml, p.1 ∉ envKeys) :
    (extract_fits_keywords xml m raw).1.environment = m.environment := by
  unfold extract_fits_keywords
  unfold fitsKeywordPairs at h
  revert h
  generalize fitsKeywordTags xml = tags
  intro h
  induction tags generalizing m raw with
  | nil => rfl
  | cons tag rest ih =>
    simp only [List.foldl_cons]
    cases hcp : cleanPairOf tag with
    | none =>
      simp only [hcp]
      exact ih m raw (fun p hp =>
        h p (by simp only [List.filterMap_cons, hcp]; exact hp))
    | some pr =>
      obtain ⟨nn, vv⟩ := pr
      have hrest : ∀ p ∈ rest.filterMap cleanPairOf, p.1 ∉ envKeys := fun p hp =>
        h p (by simp only [List.filterMap_cons, hcp]; exact List.mem_cons_of_mem _ hp)
      have hn : nn ∉ envKeys :=
        h (nn, vv) (by simp only [List.filterMap_cons, hcp]; exact List.mem_cons_self _ _)
      simp only [hcp]
      rw [ih _ _ hrest, process_fits_keyword_env hn]

theorem extract_fits_keywords_wcs (xml : List Nat) (m : AstroMetadata)
    (raw : List (List Nat × List Nat))
    (h : ∀ p ∈ fitsKeywordPairs xml, p.1 ∉ wcsKeys) :
    (extract_fits_keywords xml m raw).1.wcs = m.wcs := by
  unfold extract_fits_keywords
  unfold fitsKeywordPairs at h
  revert h
  generalize fitsKeywordTags xml = tags
  intro h
  induction tags generalizing m raw with
  | nil => rfl
  | cons tag rest ih =>
    simp only [List.foldl_cons]
    cases hcp : cleanPairOf tag with
    | none =>
      simp only [hcp]
      exact ih m raw (fun p hp =>
        h p (by simp only [List.filterMap_cons, hcp]; exact hp))
    | some pr =>
      obtain ⟨nn, vv⟩ := pr
      have hrest : ∀ p ∈ rest.filterMap cleanPairOf, p.1 ∉ wcsKeys := fun p hp =>
        h p (by simp only [List.filterMap_cons, hcp]; exact List.mem_cons_of_mem _ hp)
      have hn : nn ∉ wcsKeys :=
        h (nn, vv) (by simp only [List.filterMap_cons, hcp]; exact List.mem_cons_self _ _)
      simp only [hcp]
      rw [ih _ _ hrest, process_fits_keyword_wcs hn]

theorem extract_fits_keywords_session (xml : List Nat) (m : AstroMetadata)
    (raw : List (List Nat × List Nat)) :
    (extract_fits_keywords xml m raw).1.exposure.session_date =
      m.exposure.session_date := by
  unfold extract_fits_keywords
  generalize fitsKeywordTags xml = tags
  induction tags generalizing m raw with
  | nil => rfl
  | cons tag rest ih =>
    simp only [List.foldl_cons]
    cases hcp : cleanPairOf tag with
    | none =>
      simp only [hcp]
      exact ih m raw
    | some pr =>
      obtain ⟨nn, vv⟩ := pr
      simp only [hcp]
      rw [ih, process_fits_keyword_session]

/-- C7 (amended): the mount, environment and WCS substructures stay entirely
absent when no relevant keyword (and, for the environment, no creator
property) is observed during the parse, while the XISF-specific substructure
is always installed. -/
theorem lazy_substructures_spec (xml : List Nat) :
    ((∀ p ∈ fitsKeywordPairs xml, p.1 ∉ mountKeys) →
      (buildFromXml (some xml)).mount = none) ∧
    ((∀ p ∈ fitsKeywordPairs xml, p.1 ∉ envKeys) →
      extract_property_value xml (ascii ("XISF:CreatorApplication")) = none →
      (buildFromXml (some xml)).environment = none) ∧
    ((∀ p ∈ fitsKeywordPairs xml, p.1 ∉ wcsKeys) →
      (buildFromXml (some xml)).wcs = none) ∧
    (buildFromXml (some xml)).xisf.isSome = true := by
  have hA := extract_attachments_fields xml
    (extract_color_management xml (extract_xml_attributes xml
      (extract_fits_keywords xml initialMetadata []).1))
  have hC := extract_color_management_fields xml
    (extract_xml_attributes xml (extract_fits_keywords xml initialMetadata []).1)
  unfold buildFromXml
  refine ⟨?_, ?_, ?_, ?_⟩
  · intro hm
    rw [(calculate_session_date_fields _).1]
    dsimp only
    rw [hA.1, hC.1, extract_xml_attributes_mount,
      extract_fits_keywords_mount xml initialMetadata [] hm]
    rfl
  · intro he hca
    rw [(calculate_session_date_fields _).2.1]
    dsimp only
    rw [hA.2.1, hC.2.1, extract_xml_attributes_env_none xml _ hca,
      extract_fits_keywords_env xml initialMetadata [] he]
    rfl
  · intro hw
    rw [(calculate_session_date_fields _).2.2.1]
    dsimp only
    rw [hA.2.2.1, hC.2.2.1, extract_xml_attributes_wcs,
      extract_fits_keywords_wcs xml initialMetadata [] hw]
    rfl
  · rw [(calculate_session_date_fields _).2.2.2.1]
    dsimp only
    rfl

/-- Counterexample to C7 as stated: parsing a container whose header block is
empty observes no keyword at all, yet the XISF-specific substructure is
present in the record (it is installed unconditionally with version defaults),
while mount, environment and WCS are indeed absent. -/
theorem c7_xisf_always_present :
    fitsKeywordPairs (extract_xml_content []) = [] ∧
    (extract_metadata (ascii ("XISF0100") ++ [0, 0, 0, 0])).map
      (fun m => m.xisf.isSome) = .ok true ∧
    (extract_metadata (ascii ("XISF0100") ++ [0, 0, 0, 0])).map
      (fun m => m.mount.isSome || m.environment.isSome || m.wcs.isSome) = .ok false := by
  refine ⟨by decide, rfl, rfl⟩

/-- Witness for C7 at a header with no keyword elements at all. -/
theorem lazy_substructures_spec_witness :
    (buildFromXml (some (ascii ("<xisf/>")))).mount = none ∧
    (buildFromXml (some (ascii ("<xisf/>")))).environment = none ∧
    (buildFromXml (some (ascii ("<xisf/>")))).wcs = none ∧
    (buildFromXml (some (ascii ("<xisf/>")))).xisf.isSome = true := by
  obtain ⟨h1, h2, h3, h4⟩ := lazy_substructures_spec (ascii ("<xisf/>"))
  exact ⟨h1 (by decide), h2 (by decide) (by decide), h3 (by decide), h4⟩

theorem c10_aux (M4 : AstroMetadata) (rh : List (List Nat × List Nat))
    (x : XisfMetadata) (dv : Option ℚ) :
    M4.exposure.date_obs = dv → M4.exposure.session_date = none →
    (calculate_session_date
        { M4 with raw_headers := rh, xisf := some x }).exposure.date_obs = dv ∧
    (calculate_session_date
        { M4 with raw_headers := rh, xisf := some x }).exposure.session_date =
      (match dv with
       | some t =>
         some (sessionDateOf t
           ((calculate_session_date
               { M4 with raw_headers := rh, xisf := some x }).mount.bind
             (fun mount => mount.longitude)))
       | none => none) := by
  intro hdate hsess
  constructor
  · rw [(calculate_session_date_fields _).2.2.2.2]
    exact hdate
  · cases dv with
    | some t =>
      rw [calculate_session_date_eq { M4 with raw_headers := rh, xisf := some x } t hdate,
        (calculate_session_date_fields _).1]
    | none =>
      rw [calculate_session_date_none { M4 with raw_headers := rh, xisf := some x } hdate]
      exact hsess

/-- C10: when the markup holds an XISF:CreationTime property, the extraction
sets the observation timestamp to the parse of that property value (None when
no pattern matches), overwriting whatever the keyword pass put there, because
the attribute pass runs second; the session date is then derived from that
overwritten value (and stays unset when the parse fails). -/
theorem creation_time_overwrites_date_obs (xml v : List Nat)
    (hv : extract_property_value xml (ascii ("XISF:CreationTime")) = some v) :
    (buildFromXml (some xml)).exposure.date_obs = parse_date_time v ∧
    (buildFromXml (some xml)).exposure.session_date =
      (match parse_date_time v with
       | some t =>
         some (sessionDateOf t
           ((buildFromXml (some xml)).mount.bind (fun mount => mount.longitude)))
       | none => none) := by
  have hA := extract_attachments_fields xml
    (extract_color_management xml (extract_xml_attributes xml
      (extract_fits_keywords xml initialMetadata []).1))
  have hC := extract_color_management_fields xml
    (extract_xml_attributes xml (extract_fits_keywords xml initialMetadata []).1)
  have hdateM4 : (extract_attachments xml
      (extract_color_management xml (extract_xml_attributes xml
        (extract_fits_keywords xml initialMetadata []).1))).exposure.date_obs =
      parse_date_time v := by
    rw [hA.2.2.2.1, hC.2.2.2.1]
    exact extract_xml_attributes_date_obs xml _ v hv
  have hsessM4 : (extract_attachments xml
      (extract_color_management xml (extract_xml_attributes xml
        (extract_fits_keywords xml initialMetadata []).1))).exposure.session_date =
      none := by
    rw [hA.2.2.2.1, hC.2.2.2.1, extract_xml_attributes_session,
      extract_fits_keywords_session]
    rfl
  unfold buildFromXml
  exact c10_aux _ _ _ _ hdateM4 hsessM4

/-- The C10 witness markup: a single XISF:CreationTime property element. -/
def c10Xml : List Nat :=
  ascii ("<Property id=\"XISF:CreationTime\" type=\"String\">2023-05-15T02:00:00Z</Property>")

/-- Witness for C10 at a concrete property element. -/
theorem creation_time_overwrites_date_obs_witness :
    (buildFromXml (some c10Xml)).exposure.date_obs =
      parse_date_time (ascii ("2023-05-15T02:00:00Z")) :=
  (creation_time_overwrites_date_obs c10Xml (ascii ("2023-05-15T02:00:00Z")) (by decide)).1


/-- The key/value pair an entry contributes when it splits on the equals sign
into exactly two parts, and nothing otherwise. -/
def entryPairOf (e : List Nat) : Option (List Nat × List Nat) :=
  match List.splitOn 61 e with
  | [k, v] => some (k, v)
  | _ => none

theorem params_fold_eq (entries : List (List Nat)) (acc : List (List Nat × List Nat)) :
    entries.foldl compressionParamStep acc =
      (entries.filterMap entryPairOf).foldl (fun acc p => hmInsert p.1 p.2 acc) acc := by
  induction entries generalizing acc with
  | nil => rfl
  | cons e rest ih =>
    rw [List.foldl_cons, List.filterMap_cons]
    cases hkv : List.splitOn 61 e with
    | nil =>
      have h1 : compressionParamStep acc e = acc := by
        unfold compressionParamStep
        rw [hkv]
        rfl
      have h2 : entryPairOf e = none := by
        unfold entryPairOf
        rw [hkv]
      rw [h1, h2]
      exact ih acc
    | cons k kt =>
      cases kt with
      | nil =>
        have h1 : compressionParamStep acc e = acc := by
          unfold compressionParamStep
          rw [hkv]
          rfl
        have h2 : entryPairOf e = none := by
          unfold entryPairOf
          rw [hkv]
        rw [h1, h2]
        exact ih acc
      | cons v vt =>
        cases vt with
        | nil =>
          have h1 : compressionParamStep acc e = hmInsert k v acc := by
            unfold compressionParamStep
            rw [hkv]
            rfl
          have h2 : entryPairOf e = some (k, v) := by
            unfold entryPairOf
            rw [hkv]
          rw [h1, h2, List.foldl_cons]
          exact ih _
        | cons w wt =>
          have h1 : compressionParamStep acc e = acc := by
            unfold compressionParamStep
            rw [hkv]
            simp
          have h2 : entryPairOf e = none := by
            unfold entryPairOf
            rw [hkv]
          rw [h1, h2]
          exact ih acc

theorem display_fold_eq (entries : List (List Nat)) (acc : List (List Nat × ℚ)) :
    entries.foldl displayParamStep acc =
      (entries.filterMap (fun e =>
        match entryPairOf e with
        | some (k, v) => (parseRat v).map (fun q => (k, q))
        | none => none)).foldl (fun acc p => hmInsert p.1 p.2 acc) acc := by
  induction entries generalizing acc with
  | nil => rfl
  | cons e rest ih =>
    rw [List.foldl_cons, List.filterMap_cons]
    cases hkv : List.splitOn 61 e with
    | nil =>
      have h1 : displayParamStep acc e = acc := by
        unfold displayParamStep
        rw [hkv]
        rfl
      have h2 : entryPairOf e = none := by
        unfold entryPairOf
        rw [hkv]
      rw [h1, h2]
      exact ih acc
    | cons k kt =>
      cases kt with
      | nil =>
        have h1 : displayParamStep acc e = acc := by
          unfold displayParamStep
          rw [hkv]
          rfl
        have h2 : entryPairOf e = none := by
          unfold entryPairOf
          rw [hkv]
        rw [h1, h2]
        exact ih acc
      | cons v vt =>
        cases vt with
        | nil =>
          have h2 : entryPairOf e = some (k, v) := by
            unfold entryPairOf
            rw [hkv]
          cases hq : parseRat v with
          | none =>
            have h1 : displayParamStep acc e = acc := by
              unfold displayParamStep
              rw [hkv]
              simp [hq]
            rw [h1, h2]
            dsimp only
            rw [hq]
            exact ih acc
          | some q =>
            have h1 : displayParamStep acc e = hmInsert k q acc := by
              unfold displayParamStep
              rw [hkv]
              simp [hq]
            rw [h1, h2]
            dsimp only
            rw [hq]
            rw [Option.map_some', List.foldl_cons]
            exact ih _
        | cons w wt =>
          have h1 : displayParamStep acc e = acc := by
            unfold displayParamStep
            rw [hkv]
            simp
          have h2 : entryPairOf e = none := by
            unfold entryPairOf
            rw [hkv]
          rw [h1, h2]
          exact ih acc

/-- An Image tag whose compressionParameters attribute carries a two-equals
entry. -/
def c8Xml : List Nat :=
  ascii ("<Image id=\"i0\" compression=\"zlib\" compressionParameters=\"x=1;a=b=c\">")

/-- Counterexample to C8 as stated: the entry a=b=c is silently dropped (it
splits on every equals sign into three parts), so no key a with value b=c
appears, neither in the helper nor in a parsed attachment. -/
theorem c8_first_equals_counterexample :
    List.lookup (ascii ("a")) (compressionParamsOf (ascii ("x=1;a=b=c"))) = none ∧
    (buildFromXml (some c8Xml)).attachments.map
      (fun att => List.lookup (ascii ("a")) att.compression_parameters) = [none] ∧
    (buildFromXml (some c8Xml)).attachments.map
      (fun att => List.lookup (ascii ("x")) att.compression_parameters) =
      [some (ascii ("1"))] := by
  exact ⟨by decide, by decide, by decide⟩

/-- C8 (amended): both parameter strings are split on semicolons and each
entry on every equals sign; exactly the entries with exactly two parts are
recorded (the display variant additionally requires the value to parse as a
number), all other entries are silently dropped. -/
theorem params_split_spec (s : List Nat) :
    (compressionParamsOf s =
      ((List.splitOn 59 s).filterMap entryPairOf).foldl
        (fun acc p => hmInsert p.1 p.2 acc) []) ∧
    (displayParamsOf s =
      ((List.splitOn 59 s).filterMap (fun e =>
        match entryPairOf e with
        | some (k, v) => (parseRat v).map (fun q => (k, q))
        | none => none)).foldl (fun acc p => hmInsert p.1 p.2 acc) []) ∧
    List.lookup (ascii ("x")) (compressionParamsOf (ascii ("x=1;a=b=c;y=2"))) =
      some (ascii ("1")) ∧
    List.lookup (ascii ("y")) (compressionParamsOf (ascii ("x=1;a=b=c;y=2"))) =
      some (ascii ("2")) ∧
    List.lookup (ascii ("a")) (compressionParamsOf (ascii ("x=1;a=b=c;y=2"))) = none := by
  refine ⟨?_, ?_, by decide, by decide, by decide⟩
  · unfold compressionParamsOf
    exact params_fold_eq _ []
  · unfold displayParamsOf
    exact display_fold_eq _ []

/-- Counterexample to C9 as stated: on the plain decimal right ascension 10,
the XISF dispatch stores 10 while the FITS exposure mapping stores 150 (it
multiplies every plain RA value by 15); the two typed-field assignments
differ. -/
theorem c9_ra_counterexample :
    (process_fits_keyword {} (ascii ("RA")) (ascii ("10"))).exposure.ra = some 10 ∧
    (parse_exposure {} [(ascii ("RA"), ascii ("10"))]).ra = some 150 ∧
    (10 : ℚ) ≠ 150 := by
  have hp : parseRat [49, 48] = some 10 := by
    simp [parseRat, parseExp, isDigit, digitsToNat]
  refine ⟨?_, ?_, by norm_num⟩
  · have h : (process_fits_keyword {} (ascii ("RA")) (ascii ("10"))).exposure.ra =
        (match parseRat [49, 48] with
         | some ra => some ra
         | none =>
           match parse_sexagesimal [49, 48] with
           | some ra_deg => some (ra_deg * 15)
           | none => none) := rfl
    rw [h, hp]
  · have h : (parse_exposure {} [(ascii ("RA"), ascii ("10"))]).ra =
        (match parseRat [49, 48] with
         | some float_val => some float_val
         | none => get_float_header [(ascii ("RA"), ascii ("10"))] [ascii ("OBJCTRA")]).map
          (fun ra => ra * 15) := rfl
    rw [h, hp]
    show some ((10 : ℚ) * 15) = some 150
    norm_num

/-- C9 (amended): the XISF keyword dispatch and the FITS exposure mapping
assign identically for OBJECT with a non-empty value, for EXPTIME with any
value, and for DEC with a plain decimal value; for RA with a plain decimal
value the FITS mapping multiplies by 15 while the XISF dispatch stores the
value unchanged. -/
theorem keyword_mapping_parity (v : List Nat) (q : ℚ) :
    (v ≠ [] →
      (process_fits_keyword {} (ascii ("OBJECT")) v).exposure.object_name =
        (parse_exposure {} [(ascii ("OBJECT"), v)]).object_name) ∧
    ((process_fits_keyword {} (ascii ("EXPTIME")) v).exposure.exposure_time =
      (parse_exposure {} [(ascii ("EXPTIME"), v)]).exposure_time) ∧
    (parseRat v = some q →
      (process_fits_keyword {} (ascii ("DEC")) v).exposure.dec = some q ∧
      (parse_exposure {} [(ascii ("DEC"), v)]).dec = some q) ∧
    (parseRat v = some q →
      (process_fits_keyword {} (ascii ("RA")) v).exposure.ra = some q ∧
      (parse_exposure {} [(ascii ("RA"), v)]).ra = some (q * 15)) := by
  refine ⟨?_, ?_, ?_, ?_⟩
  · intro hv
    have h1 : (process_fits_keyword {} (ascii ("OBJECT")) v).exposure.object_name =
        some v := rfl
    have h2 : (parse_exposure {} [(ascii ("OBJECT"), v)]).object_name =
        (if v ≠ [] then some v else get_string_header [(ascii ("OBJECT"), v)] []) := rfl
    rw [h1, h2, if_pos hv]
  · have h1 : (process_fits_keyword {} (ascii ("EXPTIME")) v).exposure.exposure_time =
        parseRat v := rfl
    have h2 : (parse_exposure {} [(ascii ("EXPTIME"), v)]).exposure_time =
        (match parseRat v with
         | some float_val => some float_val
         | none => get_float_header [(ascii ("EXPTIME"), v)] [ascii ("EXPOSURE")]) := rfl
    rw [h1, h2]
    cases parseRat v with
    | none => rfl
    | some f => rfl
  · intro hq
    have h1 : (process_fits_keyword {} (ascii ("DEC")) v).exposure.dec =
        (match parseRat v with
         | some dec => some dec
         | none =>
           match parse_sexagesimal v with
           | some dec_deg => some dec_deg
           | none => none) := rfl
    have h2 : (parse_exposure {} [(ascii ("DEC"), v)]).dec =
        (match parseRat v with
         | some float_val => some float_val
         | none => get_float_header [(ascii ("DEC"), v)] [ascii ("OBJCTDEC")]) := rfl
    rw [h1, h2, hq]
    exact ⟨rfl, rfl⟩
  · intro hq
    have h1 : (process_fits_keyword {} (ascii ("RA")) v).exposure.ra =
        (match parseRat v with
         | some ra => some ra
         | none =>
           match parse_sexagesimal v with
           | some ra_deg => some (ra_deg * 15)
           | none => none) := rfl
    have h2 : (parse_exposure {} [(ascii ("RA"), v)]).ra =
        (match parseRat v with
         | some float_val => some float_val
         | none => get_float_header [(ascii ("RA"), v)] [ascii ("OBJCTRA")]).map
          (fun ra => ra * 15) := rfl
    rw [h1, h2, hq]
    exact ⟨rfl, rfl⟩

/-- Witness for C9 at a concrete keyword value. -/
theorem keyword_mapping_parity_witness :
    (process_fits_keyword {} (ascii ("EXPTIME")) (ascii ("2"))).exposure.exposure_time =
      (parse_exposure {} [(ascii ("EXPTIME"), ascii ("2"))]).exposure_time ∧
    (process_fits_keyword {} (ascii ("DEC")) (ascii ("2"))).exposure.dec = some 2 := by
  constructor
  · exact (keyword_mapping_parity (ascii ("2")) 2).2.1
  · refine ((keyword_mapping_parity (ascii ("2")) 2).2.2.1 ?_).1
    show parseRat [50] = some 2
    simp [parseRat, parseExp, isDigit, digitsToNat]
